import Mathlib

/-!
# Verification of the crossclient token/transport core

A shallow embedding of `crossclient` (token_client.py, cross_client.py,
result_submission.py). Python `datetime` values are modelled as integer
seconds since the epoch; `timedelta(seconds=n)` is integer addition.
HTTP traffic is modelled by explicit request/response values and a
transport function; exceptions are modelled with `Except String`.
-/

/-- Seconds since the epoch: the model of a Python `datetime` value. -/
abbrev Instant := Int

/-- Embeds `Token` (token_client.py, lines 14-33): the pydantic model of the
authentication token returned by the API. -/
structure Token where
  access_token : String
  refresh_token : String
  token_type : String
  created_at : Instant
  expires_in : Int
  refresh_expires_in : Int
deriving Repr, DecidableEq

/-- Embeds `Token.is_expired` (token_client.py, lines 35-43):
`datetime.now(timezone.utc) >= created_at + timedelta(seconds=expires_in)`.
The wall-clock reading `datetime.now(timezone.utc)` at check time is the
explicit argument `now`. -/
def Token.is_expired (tok : Token) (now : Instant) : Bool :=
  decide (tok.created_at + tok.expires_in ≤ now)

/-- Embeds `Token.is_refresh_expired` (token_client.py, lines 45-55). -/
def Token.is_refresh_expired (tok : Token) (now : Instant) : Bool :=
  decide (tok.created_at + tok.refresh_expires_in ≤ now)

/-- A server JSON body parsed against the `Token` model's fields.
`created_at?` is `none` when the server omits the `created_at` key. -/
structure TokenPayload where
  access_token : String
  refresh_token : String
  token_type : String
  created_at? : Option Instant
  expires_in : Int
  refresh_expires_in : Int
deriving Repr, DecidableEq

/-- Embeds `Token.model_validate` on a well-formed payload. The `created_at`
field is declared `created_at: datetime = Field(default=datetime.now(timezone.utc), ...)`
(token_client.py, lines 24-27): a pydantic `default=` value is evaluated once,
when the `Token` class body is executed at module import; that single instant
is the explicit argument `classDefTime`. A payload omitting `created_at`
therefore receives `classDefTime`, not the validation-time clock reading. -/
def Token.model_validate (classDefTime : Instant) (p : TokenPayload) : Token :=
  { access_token := p.access_token
    refresh_token := p.refresh_token
    token_type := p.token_type
    created_at := p.created_at?.getD classDefTime
    expires_in := p.expires_in
    refresh_expires_in := p.refresh_expires_in }

/-- The response of the authentication endpoint as seen by
`TokenClient._get_token`: HTTP status, body text, and the body parsed
against the `Token` model (`none` when validation of the JSON fails). -/
structure AuthResponse where
  status_code : Nat
  text : String
  payload? : Option TokenPayload
deriving Repr, DecidableEq

/-- Embeds `TokenClient._get_token` (token_client.py, lines 105-118): POSTs the
credentials, raises `ValueError(f"Failed to obtain access token: {response.text}")`
on a non-200 status, otherwise validates the JSON body into a `Token`
(validation failure raises pydantic's validation error). The network call is
modelled by its result `resp`. -/
def TokenClient.get_token (classDefTime : Instant) (resp : AuthResponse) :
    Except String Token :=
  if resp.status_code ≠ 200 then
    .error ("Failed to obtain access token: " ++ resp.text)
  else
    match resp.payload? with
    | some p => .ok (Token.model_validate classDefTime p)
    | none => .error "pydantic validation error: malformed token payload"

/-- Embeds the `TokenClient.token` property (token_client.py, lines 93-103):
`if self._token is None or self._token.is_expired: self._token = self._get_token()`
then `return self._token`. The private state `_token` is passed in as `st` and
the updated state is returned alongside the result. -/
def TokenClient.token (now classDefTime : Instant) (resp : AuthResponse)
    (st : Option Token) : Except String (Token × Option Token) :=
  match st with
  | none =>
    match TokenClient.get_token classDefTime resp with
    | .ok t => .ok (t, some t)
    | .error e => .error e
  | some tok =>
    if tok.is_expired now then
      match TokenClient.get_token classDefTime resp with
      | .ok t => .ok (t, some t)
      | .error e => .error e
    else
      .ok (tok, some tok)

/-- C2: for every Token and every wall-clock reading `now`, `is_expired` holds
exactly when `now ≥ created_at + expires_in`, `is_refresh_expired` exactly when
`now ≥ created_at + refresh_expires_in`, and with positive `expires_in` the
token is not expired at its own `created_at` instant (immediately after
issuance). -/
theorem Token.is_expired_iff_and_fresh (tok : Token) (now : Instant) :
    (tok.is_expired now = true ↔ tok.created_at + tok.expires_in ≤ now) ∧
    (tok.is_refresh_expired now = true ↔
      tok.created_at + tok.refresh_expires_in ≤ now) ∧
    (0 < tok.expires_in → tok.is_expired tok.created_at = false) := by
  refine ⟨by simp [Token.is_expired], by simp [Token.is_refresh_expired], ?_⟩
  intro hpos
  simp only [Token.is_expired, decide_eq_false_iff_not, not_le]
  exact lt_add_of_pos_right tok.created_at hpos

/-- The fixture token of the test suite, created at instant 100. -/
def sampleToken : Token :=
  { access_token := "abc123", refresh_token := "def456",
    token_type := "Bearer", created_at := 100,
    expires_in := 3600, refresh_expires_in := 7200 }

/-- Witness for C2 at a concrete token and clock reading. -/
theorem Token.is_expired_iff_and_fresh_witness :
    sampleToken.is_expired 5000 = true ∧
      sampleToken.is_refresh_expired 5000 = false ∧
      sampleToken.is_expired 100 = false := by
  refine ⟨?_, ?_, (Token.is_expired_iff_and_fresh sampleToken 5000).2.2 (by decide)⟩
  · exact (Token.is_expired_iff_and_fresh sampleToken 5000).1.mpr (by decide)
  · decide

/-- `strContains s sub` decides whether `sub` occurs as a contiguous substring
of `s` (on the character lists). -/
def strContains (s sub : String) : Bool :=
  (List.range (s.data.length + 1)).any fun i =>
    decide ((s.data.drop i).take sub.data.length = sub.data)

/-- A string built around `sub` contains `sub`. -/
theorem strContains_of_eq_append (s sub : String) (a b : List Char)
    (h : s.data = a ++ sub.data ++ b) : strContains s sub = true := by
  unfold strContains
  rw [List.any_eq_true]
  refine ⟨a.length, ?_, ?_⟩
  · rw [List.mem_range, h]
    simp only [List.length_append]
    omega
  · rw [h, List.append_assoc, List.drop_left, List.take_left, decide_eq_true_eq]

/-- A fresh-login fixture: the authentication endpoint answers 200 with the
fixture token payload (`created_at` present, instant 1000). -/
def fixturePayload : TokenPayload :=
  { access_token := "abc123", refresh_token := "def456",
    token_type := "Bearer", created_at? := some 1000,
    expires_in := 3600, refresh_expires_in := 7200 }

/-- A successful authentication response carrying `fixturePayload`. -/
def okResp : AuthResponse :=
  { status_code := 200, text := "", payload? := some fixturePayload }

/-- C1: the `token` property returns the cached token unchanged (cache
included) when a cached token exists and is not expired at the check-time
clock reading; when there is no cached token, or the cached token is expired,
it performs the fresh username/password authentication call (`_get_token`)
and caches and returns its result, propagating its failure. -/
theorem TokenClient.token_cached_or_fresh (now classDefTime : Instant)
    (resp : AuthResponse) (tok : Token) :
    (tok.is_expired now = false →
      TokenClient.token now classDefTime resp (some tok) = .ok (tok, some tok)) ∧
    (tok.is_expired now = true →
      TokenClient.token now classDefTime resp (some tok) =
        (TokenClient.get_token classDefTime resp).map fun t => (t, some t)) ∧
    (TokenClient.token now classDefTime resp none =
      (TokenClient.get_token classDefTime resp).map fun t => (t, some t)) := by
  refine ⟨fun h => by simp [TokenClient.token, h], fun h => ?_, ?_⟩
  · simp only [TokenClient.token, h, if_true]
    cases TokenClient.get_token classDefTime resp <;> rfl
  · simp only [TokenClient.token]
    cases TokenClient.get_token classDefTime resp <;> rfl

/-- A token that is expired at instant 999999 but not at instant 1000. -/
def cachedToken : Token :=
  { access_token := "cached", refresh_token := "r",
    token_type := "Bearer", created_at := 900,
    expires_in := 3600, refresh_expires_in := 7200 }

/-- Witness for C1: at instant 1000 the unexpired cached token is returned
unchanged; at instant 999999 the same cache is stale and the property returns
the freshly authenticated fixture token and caches it. -/
theorem TokenClient.token_cached_or_fresh_witness :
    TokenClient.token 1000 0 okResp (some cachedToken) =
      .ok (cachedToken, some cachedToken) ∧
    TokenClient.token 999999 0 okResp (some cachedToken) =
      (TokenClient.get_token 0 okResp).map fun t => (t, some t) :=
  ⟨(TokenClient.token_cached_or_fresh 1000 0 okResp cachedToken).1 (by decide),
   (TokenClient.token_cached_or_fresh 999999 0 okResp cachedToken).2.1 (by decide)⟩

/-- The payload of a server response that omits the `created_at` field. -/
def payloadNoCreatedAt : TokenPayload :=
  { access_token := "abc123", refresh_token := "def456",
    token_type := "Bearer", created_at? := none,
    expires_in := 3600, refresh_expires_in := 7200 }

/-- C5 (code bug): `created_at` uses pydantic `default=datetime.now(timezone.utc)`,
which is evaluated once when the `Token` class is defined (module import),
not per validation. With the class defined at instant 0, a token issued from a
`created_at`-less response one day later (instant 86400) gets `created_at = 0`
— the earlier fixed class-definition time, not its issuance time — and is
already "expired" at the moment it is issued, contradicting the field's own
description ("The timestamp when the token was created") and the spec. -/
theorem Token.model_validate_default_created_at :
    (Token.model_validate 0 payloadNoCreatedAt).created_at = 0 ∧
    (Token.model_validate 0 payloadNoCreatedAt).created_at ≠ 86400 ∧
    (Token.model_validate 0 payloadNoCreatedAt).is_expired 86400 = true := by
  refine ⟨rfl, by decide, by decide⟩

/-- The body of the 401 test-fixture response. -/
def invalidCredentialsBody : String := "\x7b\"error\": \"Invalid credentials\"\x7d"

/-- C4 (amended): on a non-200 authentication response, the raised error's
message is exactly "Failed to obtain access token: " followed by the response
body text, so it carries the body text — but not the status code. -/
theorem TokenClient.get_token_error_carries_body (classDefTime : Instant)
    (resp : AuthResponse) (h : resp.status_code ≠ 200) :
    TokenClient.get_token classDefTime resp =
      .error ("Failed to obtain access token: " ++ resp.text) ∧
    strContains ("Failed to obtain access token: " ++ resp.text) resp.text
      = true := by
  constructor
  · simp [TokenClient.get_token, h]
  · exact strContains_of_eq_append _ _ "Failed to obtain access token: ".data []
      (by simp [String.data_append])

/-- Witness for C4 (amended) at the 401 "Invalid credentials" fixture. -/
theorem TokenClient.get_token_error_carries_body_witness :
    TokenClient.get_token 0
        { status_code := 401, text := invalidCredentialsBody, payload? := none } =
      .error ("Failed to obtain access token: " ++ invalidCredentialsBody) ∧
    strContains ("Failed to obtain access token: " ++ invalidCredentialsBody)
      invalidCredentialsBody = true :=
  TokenClient.get_token_error_carries_body 0
    { status_code := 401, text := invalidCredentialsBody, payload? := none }
    (by decide)

/-- C4 (counterexample): for the 401 response with body
`{"error": "Invalid credentials"}` the raised error message is the fixed
prefix plus the body text, and the status code 401 appears nowhere in it:
the error does not carry the status code, refuting the claim as stated. -/
theorem TokenClient.get_token_error_lacks_status :
    TokenClient.get_token 0
        { status_code := 401, text := invalidCredentialsBody, payload? := none } =
      .error ("Failed to obtain access token: " ++ invalidCredentialsBody) ∧
    strContains ("Failed to obtain access token: " ++ invalidCredentialsBody)
      "401" = false := by
  refine ⟨rfl, by decide⟩

/-- A header dictionary, modelled as an insertion-ordered association list
(the model of a Python `dict`). -/
abbrev Headers := List (String × String)

/-- Python `d[k] = v` on the association list: overwrite in place when the
key is present (keeping its position), append otherwise. -/
def dictSet (k v : String) : Headers → Headers
  | [] => [(k, v)]
  | (k', v') :: rest =>
    if k' = k then (k, v) :: rest else (k', v') :: dictSet k v rest

/-- Python `d.get(k)` on the association list. -/
def dictGet (k : String) : Headers → Option String
  | [] => none
  | (k', v') :: rest => if k' = k then some v' else dictGet k rest

/-- Setting a key makes it present with the new value. -/
theorem dictGet_dictSet_self (k v : String) (hs : Headers) :
    dictGet k (dictSet k v hs) = some v := by
  induction hs with
  | nil => simp [dictSet, dictGet]
  | cons p rest ih =>
    obtain ⟨k', v'⟩ := p
    by_cases h : k' = k <;> simp [dictSet, dictGet, h, ih]

/-- Setting a key leaves every other key's value unchanged. -/
theorem dictGet_dictSet_other (k k' v : String) (hs : Headers) (h : k' ≠ k) :
    dictGet k' (dictSet k v hs) = dictGet k' hs := by
  induction hs with
  | nil => simp [dictSet, dictGet, Ne.symm h]
  | cons p rest ih =>
    obtain ⟨k0, v0⟩ := p
    by_cases hk : k0 = k
    · subst hk
      simp [dictSet, dictGet, Ne.symm h]
    · simp [dictSet, dictGet, hk, ih]

/-- An HTTP request as handed to the underlying `httpx.Client.request`. -/
structure HttpRequest where
  method : String
  endpoint : String
  headers : Headers
deriving Repr, DecidableEq

/-- An HTTP response: status and body text. -/
structure HttpResponse where
  status_code : Nat
  text : String
deriving Repr, DecidableEq

/-- The observable outcome of a successful `CrossClient._request` call:
the returned response, the token-client state after the call, the final
contents of the caller-supplied headers dict (the source mutates it in
place), and the trace of requests handed to the underlying HTTP client. -/
structure RequestOutcome where
  response : HttpResponse
  token_state : Option Token
  headers_after : Headers
  dispatched : List HttpRequest
deriving Repr, DecidableEq

/-- Embeds `CrossClient._request` (cross_client.py, lines 59-82): obtain the
current token from the token client (possibly re-authenticating, possibly
raising), default `headers` to `{}` when `None`, assign
`headers["Authorization"] = f"{token.token_type} {token.access_token}"`
into the caller's dict, dispatch once through the underlying client, and
return the response unmodified. The underlying `httpx.Client.request` is
modelled by `transport`; the source reads the `token` property twice in the
f-string, which under one clock reading and one authentication response
yields the same token, read here once. -/
def CrossClient._request (now classDefTime : Instant) (authResp : AuthResponse)
    (st : Option Token) (transport : HttpRequest → HttpResponse)
    (method endpoint : String) (headers? : Option Headers) :
    Except String RequestOutcome :=
  match TokenClient.token now classDefTime authResp st with
  | .error e => .error e
  | .ok (tok, st') =>
    let headers := headers?.getD []
    let headers := dictSet "Authorization"
      (tok.token_type ++ " " ++ tok.access_token) headers
    let req : HttpRequest :=
      { method := method, endpoint := endpoint, headers := headers }
    .ok { response := transport req, token_state := st',
          headers_after := headers, dispatched := [req] }

/-- Embeds `CrossClient.get` (cross_client.py, lines 112-122): delegates to
`_request` with method "GET", passing all keyword arguments through. -/
def CrossClient.get (now classDefTime : Instant) (authResp : AuthResponse)
    (st : Option Token) (transport : HttpRequest → HttpResponse)
    (endpoint : String) (headers? : Option Headers) :
    Except String RequestOutcome :=
  CrossClient._request now classDefTime authResp st transport "GET" endpoint
    headers?

/-- A `(filename, file_handle, mimetype)` tuple of the `files` keyword
argument. `handle` identifies the underlying handle object; `hasClose`
models `hasattr(file_handle, "close")`. -/
structure FileTuple where
  filename : String
  handle : Nat
  hasClose : Bool
  mimetype : String
deriving Repr, DecidableEq

/-- Embeds `CrossClient.post` (cross_client.py, lines 84-110): collect the
handles of all `files` entries that have a `close` method, delegate to
`_request` with method "POST", and in a `finally` block close every collected
handle — whether the request returned or raised. The set of closed handles is
threaded explicitly: the call returns the request outcome together with the
closed-handle list extended by the collected handles on every exit path. -/
def CrossClient.post (now classDefTime : Instant) (authResp : AuthResponse)
    (st : Option Token) (transport : HttpRequest → HttpResponse)
    (endpoint : String) (headers? : Option Headers)
    (files : List (String × FileTuple)) (closed : List Nat) :
    Except String RequestOutcome × List Nat :=
  let file_handles_to_close :=
    (files.filter fun p => p.2.hasClose).map fun p => p.2.handle
  let result :=
    CrossClient._request now classDefTime authResp st transport "POST" endpoint
      headers?
  (result, closed ++ file_handles_to_close)

/-- On a successful token fetch, `_request` returns exactly this outcome. -/
theorem CrossClient._request_ok (now classDefTime : Instant)
    (authResp : AuthResponse) (st : Option Token)
    (transport : HttpRequest → HttpResponse) (method endpoint : String)
    (headers? : Option Headers) (tok : Token) (st' : Option Token)
    (htok : TokenClient.token now classDefTime authResp st = .ok (tok, st')) :
    CrossClient._request now classDefTime authResp st transport method endpoint
        headers? =
      .ok { response := transport
              { method := method, endpoint := endpoint,
                headers := dictSet "Authorization"
                  (tok.token_type ++ " " ++ tok.access_token)
                  (headers?.getD []) },
            token_state := st',
            headers_after := dictSet "Authorization"
              (tok.token_type ++ " " ++ tok.access_token) (headers?.getD []),
            dispatched := [{ method := method, endpoint := endpoint,
                             headers := dictSet "Authorization"
                               (tok.token_type ++ " " ++ tok.access_token)
                               (headers?.getD []) }] } := by
  unfold CrossClient._request
  rw [htok]

/-- A transport that always answers 200. -/
def transportOk : HttpRequest → HttpResponse :=
  fun _ => { status_code := 200, text := "ok" }

/-- A transport that always answers 404. -/
def transport404 : HttpRequest → HttpResponse :=
  fun _ => { status_code := 404, text := "nope" }

/-- The token validated from `fixturePayload` at class-definition time 0. -/
def fixtureToken : Token :=
  { access_token := "abc123", refresh_token := "def456",
    token_type := "Bearer", created_at := 1000,
    expires_in := 3600, refresh_expires_in := 7200 }

/-- C3: every request dispatched through `get` or `post` carries the header
`Authorization: <token_type> <access_token>` of the token the token client
yields at call time (the cached token when still valid, the freshly
authenticated one otherwise), and every other caller-supplied header is
merged into the dispatched request rather than dropped. -/
theorem CrossClient.request_carries_authorization (now classDefTime : Instant)
    (authResp : AuthResponse) (st : Option Token)
    (transport : HttpRequest → HttpResponse) (endpoint : String) (hs : Headers)
    (files : List (String × FileTuple)) (closed : List Nat)
    (tok : Token) (st' : Option Token)
    (htok : TokenClient.token now classDefTime authResp st = .ok (tok, st')) :
    (∃ out, CrossClient.get now classDefTime authResp st transport endpoint
        (some hs) = .ok out ∧
      out.dispatched = [{ method := "GET", endpoint := endpoint,
                          headers := out.headers_after }] ∧
      dictGet "Authorization" out.headers_after =
        some (tok.token_type ++ " " ++ tok.access_token) ∧
      ∀ k, k ≠ "Authorization" →
        dictGet k out.headers_after = dictGet k hs) ∧
    (∃ out, (CrossClient.post now classDefTime authResp st transport endpoint
        (some hs) files closed).1 = .ok out ∧
      out.dispatched = [{ method := "POST", endpoint := endpoint,
                          headers := out.headers_after }] ∧
      dictGet "Authorization" out.headers_after =
        some (tok.token_type ++ " " ++ tok.access_token) ∧
      ∀ k, k ≠ "Authorization" →
        dictGet k out.headers_after = dictGet k hs) := by
  constructor
  · exact ⟨_, CrossClient._request_ok now classDefTime authResp st transport
        "GET" endpoint (some hs) tok st' htok,
      rfl, dictGet_dictSet_self _ _ _,
      fun k hk => dictGet_dictSet_other "Authorization" k _ hs hk⟩
  · exact ⟨_, CrossClient._request_ok now classDefTime authResp st transport
        "POST" endpoint (some hs) tok st' htok,
      rfl, dictGet_dictSet_self _ _ _,
      fun k hk => dictGet_dictSet_other "Authorization" k _ hs hk⟩

/-- Witness for C3: a GET with one custom header, under an unexpired cached
token, dispatches exactly one request whose headers hold the cached token's
Authorization value and the custom header. -/
theorem CrossClient.request_carries_authorization_witness :
    ∃ out, CrossClient.get 1000 0 okResp (some cachedToken) transportOk
        "/things" (some [("X-Custom", "1")]) = .ok out ∧
      out.dispatched = [{ method := "GET", endpoint := "/things",
                          headers := out.headers_after }] ∧
      dictGet "Authorization" out.headers_after =
        some (cachedToken.token_type ++ " " ++ cachedToken.access_token) ∧
      ∀ k, k ≠ "Authorization" →
        dictGet k out.headers_after = dictGet k [("X-Custom", "1")] :=
  (CrossClient.request_carries_authorization 1000 0 okResp (some cachedToken)
    transportOk "/things" [("X-Custom", "1")] [] [] cachedToken
    (some cachedToken) rfl).1

/-- C10: when the caller passes a headers dict to `get` or `post`, that dict
is mutated in place: after the call its contents are exactly the original
entries with key "Authorization" set (overwriting any caller-supplied value,
in place) to `<token_type> <access_token>` of the token obtained at call
time, every other entry unchanged. `headers_after` is the dict's content
after the call. -/
theorem CrossClient.request_mutates_caller_headers (now classDefTime : Instant)
    (authResp : AuthResponse) (st : Option Token)
    (transport : HttpRequest → HttpResponse) (endpoint : String) (hs : Headers)
    (files : List (String × FileTuple)) (closed : List Nat)
    (tok : Token) (st' : Option Token)
    (htok : TokenClient.token now classDefTime authResp st = .ok (tok, st')) :
    (∃ out, CrossClient.get now classDefTime authResp st transport endpoint
        (some hs) = .ok out ∧
      out.headers_after =
        dictSet "Authorization" (tok.token_type ++ " " ++ tok.access_token) hs) ∧
    (∃ out, (CrossClient.post now classDefTime authResp st transport endpoint
        (some hs) files closed).1 = .ok out ∧
      out.headers_after =
        dictSet "Authorization" (tok.token_type ++ " " ++ tok.access_token) hs) := by
  exact ⟨⟨_, CrossClient._request_ok now classDefTime authResp st transport
      "GET" endpoint (some hs) tok st' htok, rfl⟩,
    ⟨_, CrossClient._request_ok now classDefTime authResp st transport
      "POST" endpoint (some hs) tok st' htok, rfl⟩⟩

/-- Witness for C10: a caller dict that already holds an Authorization entry
and a custom entry; after the call the Authorization entry is overwritten in
place and the custom entry is untouched. -/
theorem CrossClient.request_mutates_caller_headers_witness :
    ∃ out, CrossClient.get 1000 0 okResp (some cachedToken) transportOk
        "/things" (some [("Authorization", "old"), ("X-Custom", "1")]) =
          .ok out ∧
      out.headers_after =
        dictSet "Authorization"
          (cachedToken.token_type ++ " " ++ cachedToken.access_token)
          [("Authorization", "old"), ("X-Custom", "1")] :=
  (CrossClient.request_mutates_caller_headers 1000 0 okResp (some cachedToken)
    transportOk "/things" [("Authorization", "old"), ("X-Custom", "1")] [] []
    cachedToken (some cachedToken) rfl).1

/-- C7: a `get` or `post` call whose token fetch succeeds dispatches exactly
one request (no retry) and returns the transport's response for it unmodified
as an ordinary value — the result is `.ok` for every transport, hence for
every response status, and no exception is derived from the status code. -/
theorem CrossClient.response_returned_unmodified (now classDefTime : Instant)
    (authResp : AuthResponse) (st : Option Token)
    (transport : HttpRequest → HttpResponse) (endpoint : String)
    (headers? : Option Headers) (files : List (String × FileTuple))
    (closed : List Nat) (tok : Token) (st' : Option Token)
    (htok : TokenClient.token now classDefTime authResp st = .ok (tok, st')) :
    (∃ out, CrossClient.get now classDefTime authResp st transport endpoint
        headers? = .ok out ∧
      out.dispatched.length = 1 ∧
      ∀ req ∈ out.dispatched, out.response = transport req) ∧
    (∃ out, (CrossClient.post now classDefTime authResp st transport endpoint
        headers? files closed).1 = .ok out ∧
      out.dispatched.length = 1 ∧
      ∀ req ∈ out.dispatched, out.response = transport req) := by
  constructor
  · refine ⟨_, CrossClient._request_ok now classDefTime authResp st transport
        "GET" endpoint headers? tok st' htok, rfl, ?_⟩
    intro req hreq
    rw [List.mem_singleton.mp hreq]
  · refine ⟨_, CrossClient._request_ok now classDefTime authResp st transport
        "POST" endpoint headers? tok st' htok, rfl, ?_⟩
    intro req hreq
    rw [List.mem_singleton.mp hreq]

/-- Witness for C7: a GET against a transport answering 404 returns the 404
response as an ordinary value, from a single dispatched request. -/
theorem CrossClient.response_returned_unmodified_witness :
    ∃ out, CrossClient.get 1000 0 okResp (some cachedToken) transport404
        "/missing" none = .ok out ∧
      out.dispatched.length = 1 ∧
      ∀ req ∈ out.dispatched, out.response = transport404 req :=
  (CrossClient.response_returned_unmodified 1000 0 okResp (some cachedToken)
    transport404 "/missing" none [] [] cachedToken (some cachedToken) rfl).1

/-- C6: for every `post` call whose `files` argument holds an attachment
tuple whose handle has a `close` method, that handle is in the closed set
after the call; the `finally` block closes it on both exit paths — whether
the request returned an outcome or raised (the disjunction enumerates the
two cases, and the closed-set fact holds in either). -/
theorem CrossClient.post_closes_file_handles (now classDefTime : Instant)
    (authResp : AuthResponse) (st : Option Token)
    (transport : HttpRequest → HttpResponse) (endpoint : String)
    (headers? : Option Headers) (files : List (String × FileTuple))
    (closed : List Nat) (name : String) (ft : FileTuple)
    (hmem : (name, ft) ∈ files) (hclose : ft.hasClose = true) :
    ft.handle ∈ (CrossClient.post now classDefTime authResp st transport
      endpoint headers? files closed).2 ∧
    ((∃ out, (CrossClient.post now classDefTime authResp st transport
        endpoint headers? files closed).1 = .ok out) ∨
     (∃ e, (CrossClient.post now classDefTime authResp st transport
        endpoint headers? files closed).1 = .error e)) := by
  constructor
  · show ft.handle ∈
      closed ++ (files.filter fun p => p.2.hasClose).map fun p => p.2.handle
    refine List.mem_append_right _ ?_
    exact List.mem_map.mpr ⟨(name, ft), List.mem_filter.mpr ⟨hmem, hclose⟩, rfl⟩
  · cases hres : (CrossClient.post now classDefTime authResp st transport
      endpoint headers? files closed).1 with
    | ok out => exact Or.inl ⟨out, rfl⟩
    | error e => exact Or.inr ⟨e, rfl⟩

/-- A one-attachment `files` argument: handle 7 with a `close` method. -/
def sampleFiles : List (String × FileTuple) :=
  [("file", { filename := "results.csv", handle := 7, hasClose := true,
              mimetype := "application/octet-stream" })]

/-- Witness for C6: after a `post` carrying attachment handle 7, the handle
is closed; the companion disjunction instantiates the success exit path. -/
theorem CrossClient.post_closes_file_handles_witness :
    (7 : Nat) ∈ (CrossClient.post 1000 0 okResp (some cachedToken) transportOk
      "/result/upload/submission_cross2025" none sampleFiles []).2 ∧
    ((∃ out, (CrossClient.post 1000 0 okResp (some cachedToken) transportOk
        "/result/upload/submission_cross2025" none sampleFiles []).1 =
          .ok out) ∨
     (∃ e, (CrossClient.post 1000 0 okResp (some cachedToken) transportOk
        "/result/upload/submission_cross2025" none sampleFiles []).1 =
          .error e)) :=
  CrossClient.post_closes_file_handles 1000 0 okResp (some cachedToken)
    transportOk "/result/upload/submission_cross2025" none sampleFiles []
    "file"
    { filename := "results.csv", handle := 7, hasClose := true,
      mimetype := "application/octet-stream" }
    (List.mem_singleton.mpr rfl) rfl

/-- C8: whenever the `token` property returns successfully, the new cached
state is exactly the returned token as a whole value, and that token is
either the previous cached value unchanged or the whole token produced by
the fresh authentication call — the cache is never a field-wise mutation of
an existing token. -/
theorem TokenClient.token_whole_value_replacement (now classDefTime : Instant)
    (resp : AuthResponse) (st : Option Token) (tok : Token)
    (st' : Option Token)
    (h : TokenClient.token now classDefTime resp st = .ok (tok, st')) :
    st' = some tok ∧
    (st = some tok ∨ TokenClient.get_token classDefTime resp = .ok tok) := by
  cases st with
  | none =>
    simp only [TokenClient.token] at h
    cases hg : TokenClient.get_token classDefTime resp with
    | ok t =>
      rw [hg] at h
      simp only [Except.ok.injEq, Prod.mk.injEq] at h
      obtain ⟨h1, h2⟩ := h
      subst h1
      exact ⟨h2.symm, Or.inr rfl⟩
    | error e =>
      rw [hg] at h
      exact absurd h (by simp)
  | some tok0 =>
    simp only [TokenClient.token] at h
    by_cases hexp : tok0.is_expired now
    · rw [if_pos hexp] at h
      cases hg : TokenClient.get_token classDefTime resp with
      | ok t =>
        rw [hg] at h
        simp only [Except.ok.injEq, Prod.mk.injEq] at h
        obtain ⟨h1, h2⟩ := h
        subst h1
        exact ⟨h2.symm, Or.inr rfl⟩
      | error e =>
        rw [hg] at h
        exact absurd h (by simp)
    · rw [if_neg hexp] at h
      simp only [Except.ok.injEq, Prod.mk.injEq] at h
      obtain ⟨h1, h2⟩ := h
      subst h1
      exact ⟨h2.symm, Or.inl rfl⟩

/-- Witness for C8: refreshing a stale cache at instant 999999 swaps in the
whole freshly authenticated fixture token. -/
theorem TokenClient.token_whole_value_replacement_witness :
    some fixtureToken = some fixtureToken ∧
    (some cachedToken = some fixtureToken ∨
      TokenClient.get_token 0 okResp = .ok fixtureToken) :=
  TokenClient.token_whole_value_replacement 999999 0 okResp (some cachedToken)
    fixtureToken (some fixtureToken) rfl

/-- The inputs that drive the control flow of `submit_results`
(result_submission.py): the upload file's name and suffix, whether a
DataFrame was provided (`df_results is not None`), and — consulted only when
it was not — whether the file exists on disk. -/
structure SubmitInput where
  fn_name : String
  suffix : String
  df_provided : Bool
  file_exists : Bool
deriving Repr, DecidableEq

/-- Embeds `submit_results` (result_submission.py, lines 63-151): reject a
suffix outside {.csv, .xlsx, .xls}; without a DataFrame require the file to
exist, with one require the .csv suffix; then upload and, on a 201 response,
return normally (printing "Submission successful."), otherwise raise
`ValueError(f"Submission failed with status code {res.status_code}: {res.text}")`.
File reading, DataFrame serialisation and the multipart payload do not affect
the checked control flow; `res` is the response of the `client.post` upload
call. -/
def submit_results (inp : SubmitInput) (res : HttpResponse) :
    Except String Unit :=
  if ¬(inp.suffix = ".csv" ∨ inp.suffix = ".xlsx" ∨ inp.suffix = ".xls") then
    .error "Unsupported file format. Please provide a CSV or Excel file. File name must end with .csv, .xlsx or .xls"
  else if inp.df_provided = false then
    if inp.file_exists = false then
      .error ("The specified results file does not exist: " ++ inp.fn_name)
    else if res.status_code = 201 then
      .ok ()
    else
      .error ("Submission failed with status code " ++
        toString res.status_code ++ ": " ++ res.text)
  else if inp.suffix ≠ ".csv" then
    .error "When providing results as a DataFrame, the filename must end with .csv"
  else if res.status_code = 201 then
    .ok ()
  else
    .error ("Submission failed with status code " ++
      toString res.status_code ++ ": " ++ res.text)

/-- C9: for a valid file input (accepted suffix; a DataFrame input has the
.csv suffix; a file input exists on disk), `submit_results` returns normally
exactly when the upload response status is 201; for any other status it
raises an error whose message contains the status code and the response body
text. -/
theorem submit_results_status_handling (inp : SubmitInput)
    (res : HttpResponse)
    (hsuffix : inp.suffix = ".csv" ∨ inp.suffix = ".xlsx" ∨ inp.suffix = ".xls")
    (hdf : inp.df_provided = true → inp.suffix = ".csv")
    (hfile : inp.df_provided = false → inp.file_exists = true) :
    (res.status_code = 201 → submit_results inp res = .ok ()) ∧
    (res.status_code ≠ 201 →
      submit_results inp res =
        .error ("Submission failed with status code " ++
          toString res.status_code ++ ": " ++ res.text) ∧
      strContains ("Submission failed with status code " ++
          toString res.status_code ++ ": " ++ res.text)
        (toString res.status_code) = true ∧
      strContains ("Submission failed with status code " ++
          toString res.status_code ++ ": " ++ res.text) res.text = true) := by
  have hmain : submit_results inp res =
      (if res.status_code = 201 then .ok () else
        .error ("Submission failed with status code " ++
          toString res.status_code ++ ": " ++ res.text)) := by
    unfold submit_results
    rw [if_neg (by simp [hsuffix])]
    cases hd : inp.df_provided with
    | false =>
      rw [if_pos rfl, if_neg (by simp [hfile hd])]
    | true =>
      rw [if_neg (by simp), if_neg (by simp [hdf hd])]
  constructor
  · intro h201
    rw [hmain, if_pos h201]
  · intro hne
    refine ⟨by rw [hmain, if_neg hne], ?_, ?_⟩
    · apply strContains_of_eq_append _ _
        "Submission failed with status code ".data (": " ++ res.text).data
      simp [String.data_append, List.append_assoc]
    · apply strContains_of_eq_append _ _
        ("Submission failed with status code " ++
          toString res.status_code ++ ": ").data []
      simp [String.data_append, List.append_assoc]

/-- Witness for C9: a 201 upload response reports success; a 400 response
with body "Bad Request" fails with a message containing "400" and
"Bad Request". -/
theorem submit_results_status_handling_witness :
    (submit_results
        { fn_name := "test_results.csv", suffix := ".csv",
          df_provided := true, file_exists := true }
        { status_code := 400, text := "Bad Request" } =
      .error ("Submission failed with status code " ++
        toString (400 : Nat) ++ ": " ++ "Bad Request") ∧
     strContains ("Submission failed with status code " ++
        toString (400 : Nat) ++ ": " ++ "Bad Request")
       (toString (400 : Nat)) = true ∧
     strContains ("Submission failed with status code " ++
        toString (400 : Nat) ++ ": " ++ "Bad Request") "Bad Request" =
       true) ∧
    submit_results
        { fn_name := "test_results.csv", suffix := ".csv",
          df_provided := true, file_exists := true }
        { status_code := 201, text := "" } = .ok () :=
  ⟨(submit_results_status_handling
      { fn_name := "test_results.csv", suffix := ".csv",
        df_provided := true, file_exists := true }
      { status_code := 400, text := "Bad Request" }
      (Or.inl rfl) (fun _ => rfl) (by simp)).2 (by decide),
   (submit_results_status_handling
      { fn_name := "test_results.csv", suffix := ".csv",
        df_provided := true, file_exists := true }
      { status_code := 201, text := "" }
      (Or.inl rfl) (fun _ => rfl) (by simp)).1 rfl⟩
